import Mathlib

/-!
Shallow embedding of the pychapa synchronous client
(src/pychapa/clients/sync_client.py) together with proofs about its
request/response pipeline: payload builders, the transport adapter
`_send_request`, the response decoder `_extract_json_data` /
`_check_response`, the field validator `_check_data_fields`, and the
per-operation result extraction.

Python JSON values are embedded as `JValue`; Python dicts as
insertion-ordered association lists with Python dict semantics
(`dictGet`, `dictSet`, `dictUpdate`); exceptions as the `PyError`
inductive, with fallible code returning `Except PyError`.
-/

namespace Pychapa

/-- Embedding of a Python JSON value (the values that appear in request
payloads and decoded response bodies). Numbers are embedded as integers;
the operations proved about never inspect numeric values beyond equality. -/
inductive JValue where
  | null : JValue
  | bool (b : Bool) : JValue
  | num (n : Int) : JValue
  | str (s : String) : JValue
  | arr (xs : List JValue) : JValue
  | obj (kvs : List (String × JValue)) : JValue

/-- A Python dict with string keys, embedded as an insertion-ordered
association list. -/
abbrev Dict (α : Type) : Type := List (String × α)

/-- Embedding of Python `d.get(k)` / `k in d` lookup: the value at the
first matching key, if any. -/
def dictGet {α : Type} : Dict α → String → Option α
  | [], _ => none
  | (k2, v) :: rest, k => if k2 = k then some v else dictGet rest k

/-- Embedding of Python `k in d`. -/
def dictContains {α : Type} : Dict α → String → Bool
  | [], _ => false
  | (k2, _) :: rest, k => if k2 = k then true else dictContains rest k

/-- Embedding of Python `d.get(k, default)`. -/
def dictGetD {α : Type} (d : Dict α) (k : String) (default : α) : α :=
  (dictGet d k).getD default

/-- Embedding of Python `d[k] = v`: replaces the value in place when the
key is already present, otherwise appends the new entry. -/
def dictSet {α : Type} : Dict α → String → α → Dict α
  | [], k, v => [(k, v)]
  | (k2, v2) :: rest, k, v =>
      if k2 = k then (k2, v) :: rest else (k2, v2) :: dictSet rest k v

/-- Embedding of Python `d.update(e)`: sets every entry of `e` in `d`,
left to right. -/
def dictUpdate {α : Type} (d e : Dict α) : Dict α :=
  e.foldl (fun acc kv => dictSet acc kv.1 kv.2) d

/-- Key uniqueness for an association list (holds for every dict built by
Python dict operations). -/
def nodupKeys {α : Type} : Dict α → Bool
  | [] => true
  | (k, _) :: rest => !(dictContains rest k) && nodupKeys rest

/-- Embedding of Python `s.lstrip("/")`: drop every leading slash. -/
def pyLstripSlash (s : String) : String :=
  String.mk (s.data.dropWhile (fun c => c == '/'))

/-- Embedding of Python `s.lower()` for the ASCII currency codes used by
the client. -/
def pyLower (s : String) : String :=
  String.mk (s.data.map Char.toLower)

/-- Embedding of Python `str(n)` on an integer amount. -/
def pyStrInt (n : Int) : String := toString n

/-- Whether a string begins with a slash (stated on the character list of
the string). -/
def strStartsWithSlash (s : String) : Bool :=
  match s.data with
  | [] => false
  | c :: _ => c == '/'

/-- Embedding of an httpx response as the pipeline observes it: the HTTP
status code, and the JSON object the body parses to (`none` when the body
is not valid structured data). The pipeline types every parsed body as a
dict, matching the source annotations; bodies parsing to non-object JSON
are outside this model. -/
structure Response where
  status_code : Nat
  jsonBody : Option (Dict JValue)

/-- Embedding of httpx `response.is_success`: status code in the 2xx
range. -/
def Response.is_success (r : Response) : Bool :=
  200 ≤ r.status_code && r.status_code < 300

/-- Embedding of the Python exceptions the client can raise. `chapaError`
is the library exception `ChapaError(msg, response=None)` from
src/pychapa/exception.py, carrying the message and the optional original
response; `valueError` and `typeError` are the built-in exceptions raised
by `_send_request`; `jsonDecodeError` is `json.JSONDecodeError` (raised by
the standard-library JSON parser); `httpxDecodingError` is
`httpx.DecodingError` (raised by the httpx content decoders). -/
inductive PyError where
  | chapaError (msg : JValue) (response : Option Response) : PyError
  | valueError (msg : String) : PyError
  | typeError (msg : String) : PyError
  | jsonDecodeError (msg : String) : PyError
  | httpxDecodingError (msg : String) : PyError

/-- Discriminator for the library exception `ChapaError`. -/
def PyError.isChapaError : PyError → Bool
  | .chapaError _ _ => true
  | _ => false

/-- Discriminator for `httpx.DecodingError`, the class named by the
`except` clause of `_extract_json_data`. -/
def PyError.isHttpxDecodingError : PyError → Bool
  | .httpxDecodingError _ => true
  | _ => false

/-- Models the httpx library: `Response.json()` parses the body with the
standard-library JSON parser (`json.loads`), which raises
`json.JSONDecodeError` when the body is not valid JSON.
`httpx.DecodingError` is raised only by the content-transfer decoders
(malformed gzip/deflate/brotli streams), never by `Response.json()`. -/
def Response.json (r : Response) : Except PyError (Dict JValue) :=
  match r.jsonBody with
  | some data => Except.ok data
  | none => Except.error (PyError.jsonDecodeError "Expecting value")

/-- Embedding of `Chapa._check_response`: on a non-2xx status, raise
`ChapaError(data.get("message", "Unknown error"), response)`. -/
def _check_response (response : Response) (data : Dict JValue) :
    Except PyError Unit :=
  if response.is_success then Except.ok ()
  else
    Except.error
      (PyError.chapaError (dictGetD data "message" (JValue.str "Unknown error"))
        (some response))

/-- Embedding of `Chapa._extract_json_data`: call `response.json()` inside
a try block whose except clause catches only `httpx.DecodingError`
(re-raising it as `ChapaError("Invalid JSON response", response)`), then
run `_check_response` and return the parsed data. -/
def _extract_json_data (response : Response) : Except PyError (Dict JValue) :=
  let attempt :=
    match response.json with
    | Except.error e =>
        if e.isHttpxDecodingError then
          Except.error
            (PyError.chapaError (JValue.str "Invalid JSON response") (some response))
        else Except.error e
    | Except.ok data => Except.ok data
  match attempt with
  | Except.error e => Except.error e
  | Except.ok data =>
      match _check_response response data with
      | Except.error e => Except.error e
      | Except.ok _ => Except.ok data

/-- Embedding of `Chapa._check_data_fields`: walk the field list in order
and raise `ChapaError(f"data missing {field} field")` at the first field
absent from the data. -/
def _check_data_fields (data : Dict JValue) : List String → Except PyError Unit
  | [] => Except.ok ()
  | field :: rest =>
      if dictContains data field then _check_data_fields data rest
      else
        Except.error
          (PyError.chapaError (JValue.str ("data missing " ++ field ++ " field"))
            none)

/-- The outgoing HTTP request handed to the underlying httpx transport:
the method picked by attribute lookup, the resolved absolute URL, and the
headers passed to the call. -/
structure HttpRequest where
  method : String
  url : String
  headers : Dict String

/-- The client state created by `Chapa.__init__`: the token, the base URL
and the stored base header dict `__base_headers__`. -/
structure ChapaClient where
  token : String
  base_url : String
  base_headers : Dict String

/-- Embedding of `Chapa.__init__(token, base_url)`. -/
def Chapa.init (token : String) (base_url : String) : ChapaClient :=
  { token := token
    base_url := base_url
    base_headers :=
      [("Authorization", "Bearer " ++ token),
       ("Content-Type", "application/json")] }

/-- Models `hasattr(httpx.Client, name)` for the dynamic method lookup in
`_send_request`: the request helpers and public attributes of
`httpx.Client`. -/
def httpxClientAttrs : List String :=
  ["get", "post", "put", "patch", "delete", "head", "options", "request",
   "stream", "send", "build_request", "close", "headers", "cookies",
   "params", "auth", "base_url", "timeout", "event_hooks", "trust_env",
   "is_closed", "follow_redirects", "max_redirects"]

/-- The value passed as the `headers` keyword argument of `_send_request`:
either a Python dict of header entries, or some non-dict Python value
(which fails the `isinstance(extra_headers, dict)` check). -/
inductive HeadersArg where
  | dict (entries : Dict String) : HeadersArg
  | nonDict : HeadersArg

/-- Embedding of the URL resolution in `_send_request`:
the f-string `f"{self.__base_url__}/{path.lstrip('/')}"`. -/
def resolveURL (base_url path : String) : String :=
  base_url ++ "/" ++ pyLstripSlash path

/-- Embedding of `Chapa._send_request`. The underlying network call is
abstracted as the function `transport`; it is applied only on the success
path, after the method-name check, the header merge and the URL
resolution. The returned pair carries the client state after the call:
`headers = {**self.__base_headers__}` copies the stored base headers, so
the merge never touches them and the client is returned unchanged. -/
def _send_request (c : ChapaClient) (transport : HttpRequest → Response)
    (method : String) (path : String) (headersKw : Option HeadersArg) :
    Except PyError (Response × ChapaClient) :=
  if !(httpxClientAttrs.contains method) then
    Except.error
      (PyError.valueError
        ("HTTP method " ++ method ++ " is not valid method for httpx.Client"))
  else
    let headers := c.base_headers
    match headersKw with
    | some HeadersArg.nonDict =>
        Except.error (PyError.typeError "headers must be a valid dict")
    | some (HeadersArg.dict extra) =>
        let headers := dictUpdate headers extra
        let url := resolveURL c.base_url path
        Except.ok
          (transport { method := method, url := url, headers := headers }, c)
    | none =>
        let url := resolveURL c.base_url path
        Except.ok
          (transport { method := method, url := url, headers := headers }, c)

/-- Embedding of the conditional insertion pattern of the payload
builders for an optional string parameter:
`if x: payload[k] = x` (absent or empty strings are falsy). -/
def addIfStr (d : Dict JValue) (k : String) (v : Option String) : Dict JValue :=
  match v with
  | none => d
  | some s => if s = "" then d else dictSet d k (JValue.str s)

/-- Embedding of the conditional insertion pattern for an optional dict
parameter: `if x: payload[k] = x` (absent or empty dicts are falsy). -/
def addIfDict (d : Dict JValue) (k : String) (v : Option (Dict JValue)) :
    Dict JValue :=
  match v with
  | none => d
  | some x => if x.isEmpty then d else dictSet d k (JValue.obj x)

/-- Truthiness of an optional string parameter under `if x:`. -/
def strOptTruthy : Option String → Bool
  | none => false
  | some s => if s = "" then false else true

/-- Truthiness of an optional dict parameter under `if x:`. -/
def dictOptTruthy : Option (Dict JValue) → Bool
  | none => false
  | some d => !d.isEmpty

/-- Embedding of the payload assembled by `Chapa.init_payment`: starts
from `{"amount": str(amount)}` and conditionally inserts each optional
parameter, in the order of the source body. -/
def init_payment_payload (amount : Int) (currency first_name last_name
    phone_number email callback_url return_url : Option String)
    (customization : Option (Dict JValue)) (subaccount_id tx_ref : Option String)
    (meta : Option (Dict JValue)) : Dict JValue :=
  let payload : Dict JValue := [("amount", JValue.str (pyStrInt amount))]
  let payload := addIfStr payload "currency" currency
  let payload := addIfStr payload "first_name" first_name
  let payload := addIfStr payload "last_name" last_name
  let payload := addIfStr payload "phone_number" phone_number
  let payload := addIfStr payload "email" email
  let payload := addIfStr payload "callback_url" callback_url
  let payload := addIfStr payload "return_url" return_url
  let payload := addIfStr payload "tx_ref" tx_ref
  let payload := addIfDict payload "customization" customization
  let payload := addIfStr payload "subaccount_id" subaccount_id
  let payload := addIfDict payload "meta" meta
  payload

/-- Embedding of the payload assembled by `Chapa.init_transfer`: the three
required entries (with `amount` kept numeric), then the conditional
optional insertions. -/
def init_transfer_payload (amount : Int) (account_number : String)
    (bank_code : Int) (currency account_name reference : Option String) :
    Dict JValue :=
  let payload : Dict JValue :=
    [("account_number", JValue.str account_number),
     ("amount", JValue.num amount),
     ("bank_code", JValue.num bank_code)]
  let payload := addIfStr payload "currency" currency
  let payload := addIfStr payload "account_name" account_name
  let payload := addIfStr payload "reference" reference
  payload

/-- Embedding of the payload assembled by `Chapa.create_subaccount`. -/
def create_subaccount_payload (account_name : String) (bank_code : Int)
    (account_number : String) (split_value : Int) (split_type : String)
    (business_name : Option String) : Dict JValue :=
  let payload : Dict JValue :=
    [("account_name", JValue.str account_name),
     ("bank_code", JValue.num bank_code),
     ("account_number", JValue.str account_number),
     ("split_value", JValue.num split_value),
     ("split_type", JValue.str split_type)]
  let payload := addIfStr payload "business_name" business_name
  payload

/-- Embedding of the payload assembled by `Chapa.bulk_transfer`: starts
empty, conditionally inserts `title` and `currency`, then always sets
`bulk_data` via `payload.update`. -/
def bulk_transfer_payload (title currency : Option String)
    (bulk_data : List JValue) : Dict JValue :=
  let payload : Dict JValue := []
  let payload := addIfStr payload "title" title
  let payload := addIfStr payload "currency" currency
  let payload := dictUpdate payload [("bulk_data", JValue.arr bulk_data)]
  payload

/-- Embedding of the shared result shape for operations that validate
fields: `data = json_data.get("data", {})` under the source annotation
that `data` is a dict. Envelopes carrying a non-object `data` value are
outside this model. -/
def envelope_data (json_data : Dict JValue) : Dict JValue :=
  match dictGet json_data "data" with
  | some (JValue.obj d) => d
  | _ => []

/-- Embedding of the response processing shared by every operation that
validates required fields (init_payment, verify_transaction,
create_subaccount, bulk_transfer, verify_transfer, parametrised by that
operation's required field list): extract the JSON envelope, take
`data = json_data.get("data", {})`, run `_check_data_fields`, and hand the
validated data to the result mapper. -/
def validated_op_process (fields : List String) (r : Response) :
    Except PyError (Dict JValue) :=
  match _extract_json_data r with
  | Except.error e => Except.error e
  | Except.ok json_data =>
      let data := envelope_data json_data
      match _check_data_fields data fields with
      | Except.error e => Except.error e
      | Except.ok _ => Except.ok data

/-- Embedding of the response processing of `Chapa.banks`: the whole
decoded envelope `json_data` is returned, not its `data` portion. -/
def banks_process (r : Response) : Except PyError (Dict JValue) :=
  match _extract_json_data r with
  | Except.error e => Except.error e
  | Except.ok json_data => Except.ok json_data

/-- Embedding of the response processing of `Chapa.get_transactions`:
returns `json_data.get("data", {})` with no field validation. -/
def get_transactions_process (r : Response) : Except PyError JValue :=
  match _extract_json_data r with
  | Except.error e => Except.error e
  | Except.ok json_data => Except.ok (dictGetD json_data "data" (JValue.obj []))

/-- Embedding of the response processing of `Chapa.get_transfers`:
returns `json_data.get("data", {})` with no field validation. -/
def get_transfers_process (r : Response) : Except PyError JValue :=
  match _extract_json_data r with
  | Except.error e => Except.error e
  | Except.ok json_data => Except.ok (dictGetD json_data "data" (JValue.obj []))

/-- Embedding of the response processing of `Chapa.swap`:
returns `json_data.get("data", {})` with no field validation. -/
def swap_process (r : Response) : Except PyError JValue :=
  match _extract_json_data r with
  | Except.error e => Except.error e
  | Except.ok json_data => Except.ok (dictGetD json_data "data" (JValue.obj []))

/-- Embedding of the response processing of `Chapa.get_transaction_log`:
returns `json_data.get("data", [])` with no field validation. -/
def get_transaction_log_process (r : Response) : Except PyError JValue :=
  match _extract_json_data r with
  | Except.error e => Except.error e
  | Except.ok json_data => Except.ok (dictGetD json_data "data" (JValue.arr []))

/-- Embedding of the request path chosen by `Chapa.balances`: the bare
balances endpoint, or `f"{path}/{currency.lower()}"` when a currency is
given (the truthy case of `if currency:`). -/
def balances_path (currency : Option String) : String :=
  let path := "balances"
  match currency with
  | some cur => if cur = "" then path else path ++ "/" ++ pyLower cur
  | none => path

/-- The required fields of one balance entry, as listed in
`Chapa.balances`. -/
def balanceRequiredFields : List String :=
  ["currency", "available_balance", "ledger_balance"]

/-- Embedding of the `ChapaBalance` record built from one balance entry.
Pydantic constructs the model from the named fields of the entry; the
embedding records those field values (pydantic numeric coercion is not
modelled). -/
structure ChapaBalance where
  currency : JValue
  available_balance : JValue
  ledger_balance : JValue

/-- Result mapping of one balance entry into a `ChapaBalance` record. -/
def mkChapaBalance (b : Dict JValue) : ChapaBalance :=
  { currency := dictGetD b "currency" JValue.null
    available_balance := dictGetD b "available_balance" JValue.null
    ledger_balance := dictGetD b "ledger_balance" JValue.null }

/-- Embedding of the result loop of `Chapa.balances`: for each balance
entry of the returned data list, in order, run `_check_data_fields` on the
entry and append the mapped record. -/
def balances_map : List (Dict JValue) → Except PyError (List ChapaBalance)
  | [] => Except.ok []
  | b :: rest =>
      match _check_data_fields b balanceRequiredFields with
      | Except.error e => Except.error e
      | Except.ok _ =>
          match balances_map rest with
          | Except.error e => Except.error e
          | Except.ok tail => Except.ok (mkChapaBalance b :: tail)

/-- Embedding of Python `s.rstrip("/")`: drop every trailing slash. Used
only to state the specified URL normalization. -/
def strRstripSlash (s : String) : String :=
  String.mk (s.data.reverse.dropWhile (fun c => c == '/')).reverse

/-- Modelled from the spec words for URL resolution: joining the base URL
and the path with exactly one separating slash between them, normalizing
whatever leading and trailing slashes either side carries. Stated only to
be compared against `resolveURL`, the join the source performs. -/
def spec_join (base_url path : String) : String :=
  strRstripSlash base_url ++ "/" ++ pyLstripSlash path

/-- A concrete transport used to instantiate theorems about
`_send_request`: replies 200 with an empty JSON object body. -/
def stubTransport : HttpRequest → Response :=
  fun _ => { status_code := 200, jsonBody := some [] }

/-- A concrete client used to instantiate theorems. -/
def clientExample : ChapaClient :=
  Chapa.init "token" "https://api.chapa.co/v1"

/-- A concrete 404 response whose body parses to an object carrying a
server message. -/
def notFoundResponse : Response :=
  { status_code := 404, jsonBody := some [("message", JValue.str "not found")] }

/-- A concrete 200 response whose envelope has `message` and `status` keys
but no `data` key. -/
def okEnvelopeResponse : Response :=
  { status_code := 200
    jsonBody := some [("message", JValue.str "ok"), ("status", JValue.str "success")] }

/-! Helper lemmas about the dict operations. -/

theorem dictGet_eq_none_of_contains {α : Type} (d : Dict α) (k : String)
    (h : dictContains d k = false) : dictGet d k = none := by
  induction d with
  | nil => rfl
  | cons hd tl ih =>
    obtain ⟨k2, v⟩ := hd
    by_cases h2 : k2 = k
    · simp [dictContains, h2] at h
    · simp [dictContains, h2] at h
      simp [dictGet, h2, ih h]

theorem dictGet_dictSet {α : Type} (d : Dict α) (k k2 : String) (v : α) :
    dictGet (dictSet d k v) k2 = if k = k2 then some v else dictGet d k2 := by
  induction d with
  | nil => simp [dictSet, dictGet]
  | cons hd tl ih =>
    obtain ⟨k3, v3⟩ := hd
    by_cases h3 : k3 = k
    · subst h3
      by_cases h2 : k3 = k2 <;> simp [dictSet, dictGet, h2]
    · by_cases h2 : k3 = k2
      · subst h2
        have hne : k ≠ k3 := fun h => h3 h.symm
        simp [dictSet, dictGet, h3, hne]
      · simp [dictSet, dictGet, h3, h2, ih]

theorem dictContains_dictSet {α : Type} (d : Dict α) (k k2 : String) (v : α) :
    dictContains (dictSet d k v) k2 =
      if k = k2 then true else dictContains d k2 := by
  induction d with
  | nil => simp [dictSet, dictContains]
  | cons hd tl ih =>
    obtain ⟨k3, v3⟩ := hd
    by_cases h3 : k3 = k
    · subst h3
      by_cases h2 : k3 = k2 <;> simp [dictSet, dictContains, h2]
    · by_cases h2 : k3 = k2
      · subst h2
        have hne : k ≠ k3 := fun h => h3 h.symm
        simp [dictSet, dictContains, h3, hne]
      · simp [dictSet, dictContains, h3, h2, ih]

theorem dictGet_dictUpdate {α : Type} (e d : Dict α)
    (hn : nodupKeys e = true) (k : String) :
    dictGet (dictUpdate d e) k =
      (dictGet e k).orElse (fun _ => dictGet d k) := by
  induction e generalizing d with
  | nil => simp [dictUpdate, dictGet]
  | cons hd tl ih =>
    obtain ⟨k1, v1⟩ := hd
    simp [nodupKeys] at hn
    have step : dictUpdate d ((k1, v1) :: tl) = dictUpdate (dictSet d k1 v1) tl := by
      simp [dictUpdate]
    rw [step, ih _ hn.2]
    by_cases h1 : k1 = k
    · subst h1
      have : dictGet tl k1 = none := dictGet_eq_none_of_contains tl k1 hn.1
      simp [dictGet, this, dictGet_dictSet]
    · simp [dictGet, h1, dictGet_dictSet]

/-! Helper lemmas about the conditional-insertion pattern of the payload
builders. -/

theorem dictContains_addIfStr_self (d : Dict JValue) (k : String)
    (v : Option String) :
    dictContains (addIfStr d k v) k = (strOptTruthy v || dictContains d k) := by
  match v with
  | none => simp [addIfStr, strOptTruthy]
  | some s =>
    by_cases hs : s = "" <;>
      simp [addIfStr, strOptTruthy, hs, dictContains_dictSet]

theorem dictContains_addIfStr_ne (d : Dict JValue) (k : String)
    (v : Option String) (k2 : String) (h : k ≠ k2) :
    dictContains (addIfStr d k v) k2 = dictContains d k2 := by
  match v with
  | none => rfl
  | some s =>
    by_cases hs : s = "" <;> simp [addIfStr, hs, dictContains_dictSet, h]

theorem dictContains_addIfDict_self (d : Dict JValue) (k : String)
    (v : Option (Dict JValue)) :
    dictContains (addIfDict d k v) k = (dictOptTruthy v || dictContains d k) := by
  match v with
  | none => simp [addIfDict, dictOptTruthy]
  | some x =>
    by_cases hx : x.isEmpty <;>
      simp [addIfDict, dictOptTruthy, hx, dictContains_dictSet]

theorem dictContains_addIfDict_ne (d : Dict JValue) (k : String)
    (v : Option (Dict JValue)) (k2 : String) (h : k ≠ k2) :
    dictContains (addIfDict d k v) k2 = dictContains d k2 := by
  match v with
  | none => rfl
  | some x =>
    by_cases hx : x.isEmpty <;> simp [addIfDict, hx, dictContains_dictSet, h]

theorem dictGet_addIfStr_ne (d : Dict JValue) (k : String)
    (v : Option String) (k2 : String) (h : k ≠ k2) :
    dictGet (addIfStr d k v) k2 = dictGet d k2 := by
  match v with
  | none => rfl
  | some s =>
    by_cases hs : s = "" <;> simp [addIfStr, hs, dictGet_dictSet, h]

theorem dictGet_addIfDict_ne (d : Dict JValue) (k : String)
    (v : Option (Dict JValue)) (k2 : String) (h : k ≠ k2) :
    dictGet (addIfDict d k v) k2 = dictGet d k2 := by
  match v with
  | none => rfl
  | some x =>
    by_cases hx : x.isEmpty <;> simp [addIfDict, hx, dictGet_dictSet, h]

/-! Helper lemmas about the response pipeline. -/

theorem check_response_of_success (r : Response) (data : Dict JValue)
    (hs : r.is_success = true) : _check_response r data = Except.ok () := by
  simp [_check_response, hs]

theorem check_response_of_failure (r : Response) (data : Dict JValue)
    (hs : r.is_success = false) :
    _check_response r data =
      Except.error
        (PyError.chapaError (dictGetD data "message" (JValue.str "Unknown error"))
          (some r)) := by
  simp [_check_response, hs]

theorem extract_json_data_of_body (r : Response) (data : Dict JValue)
    (hb : r.jsonBody = some data) :
    _extract_json_data r =
      match _check_response r data with
      | Except.error e => Except.error e
      | Except.ok _ => Except.ok data := by
  simp [_extract_json_data, Response.json, hb]

theorem extract_json_data_of_unparseable (r : Response)
    (hb : r.jsonBody = none) :
    _extract_json_data r =
      Except.error (PyError.jsonDecodeError "Expecting value") := by
  simp [_extract_json_data, Response.json, hb, PyError.isHttpxDecodingError]

/-! Helper lemmas about the field validator. -/

theorem check_data_fields_of_all_present (data : Dict JValue)
    (fields : List String) (h : ∀ f ∈ fields, dictContains data f = true) :
    _check_data_fields data fields = Except.ok () := by
  induction fields with
  | nil => rfl
  | cons f rest ih =>
    have hf : dictContains data f = true := h f (by simp)
    have hrest := ih (fun g hg => h g (by simp [hg]))
    simp [_check_data_fields, hf, hrest]

theorem check_data_fields_of_first_missing (data : Dict JValue)
    (pre : List String) (f : String) (post : List String)
    (hmiss : dictContains data f = false)
    (hpre : ∀ g ∈ pre, dictContains data g = true) :
    _check_data_fields data (pre ++ f :: post) =
      Except.error
        (PyError.chapaError (JValue.str ("data missing " ++ f ++ " field"))
          none) := by
  induction pre with
  | nil => simp [_check_data_fields, hmiss]
  | cons g rest ih =>
    have hg : dictContains data g = true := hpre g (by simp)
    have hrest := ih (fun g2 hg2 => hpre g2 (by simp [hg2]))
    simp [_check_data_fields, hg, hrest]

/-! Helper lemmas about the balances result loop. -/

theorem balances_map_of_all_valid (xs : List (Dict JValue))
    (h : ∀ b ∈ xs, _check_data_fields b balanceRequiredFields = Except.ok ()) :
    balances_map xs = Except.ok (xs.map mkChapaBalance) := by
  induction xs with
  | nil => rfl
  | cons b rest ih =>
    have hb := h b (by simp)
    have hrest := ih (fun c hc => h c (by simp [hc]))
    simp [balances_map, hb, hrest]

theorem balances_map_of_first_invalid (pre : List (Dict JValue))
    (b : Dict JValue) (post : List (Dict JValue)) (e : PyError)
    (hb : _check_data_fields b balanceRequiredFields = Except.error e)
    (hpre : ∀ c ∈ pre, _check_data_fields c balanceRequiredFields = Except.ok ()) :
    balances_map (pre ++ b :: post) = Except.error e := by
  induction pre with
  | nil => simp [balances_map, hb]
  | cons c rest ih =>
    have hc := hpre c (by simp)
    have hrest := ih (fun c2 hc2 => hpre c2 (by simp [hc2]))
    simp [balances_map, hc, hrest]

/-! Helper lemma about stripped leading slashes. -/

theorem head_dropWhile_false (p : Char → Bool) (l : List Char) (c : Char)
    (cs : List Char) (h : l.dropWhile p = c :: cs) : p c = false := by
  induction l with
  | nil => cases h
  | cons a tl ih =>
    by_cases ha : p a = true
    · rw [List.dropWhile_cons_of_pos ha] at h
      exact ih h
    · have ha2 : p a = false := by simpa using ha
      rw [List.dropWhile_cons_of_neg (by simp [ha2])] at h
      cases h
      exact ha2

theorem strStartsWithSlash_pyLstripSlash (s : String) :
    strStartsWithSlash (pyLstripSlash s) = false := by
  cases hd : s.data.dropWhile (fun c => c == '/') with
  | nil => simp [pyLstripSlash, strStartsWithSlash, hd]
  | cons c cs =>
    have hc := head_dropWhile_false (fun c => c == '/') s.data c cs hd
    simp [pyLstripSlash, strStartsWithSlash, hd, hc]

/-! The claims. -/

/-- C1: every operation routes its response through `_extract_json_data`,
so for a non-2xx response whose body parses as structured data the call
fails with a ChapaError (the RemoteError of the spec) whose message is the
server-supplied `message` field of the body, defaulting to the string
"Unknown error" when that field is absent, and which carries the original
raw response (hence its status code), regardless of which fields are
present in the body. -/
theorem c1_remote_error (r : Response) (data : Dict JValue)
    (hb : r.jsonBody = some data) (hs : r.is_success = false) :
    (∀ m, dictGet data "message" = some m →
      _extract_json_data r = Except.error (PyError.chapaError m (some r)))
    ∧ (dictGet data "message" = none →
      _extract_json_data r =
        Except.error
          (PyError.chapaError (JValue.str "Unknown error") (some r))) := by
  constructor
  · intro m hm
    rw [extract_json_data_of_body r data hb, check_response_of_failure r data hs]
    simp [dictGetD, hm]
  · intro hm
    rw [extract_json_data_of_body r data hb, check_response_of_failure r data hs]
    simp [dictGetD, hm]

/-- Witness for C1: a 404 response with body `{"message": "not found"}`
fails with `ChapaError("not found", response)`. -/
theorem c1_remote_error_witness :
    _extract_json_data notFoundResponse =
      Except.error
        (PyError.chapaError (JValue.str "not found") (some notFoundResponse)) :=
  (c1_remote_error notFoundResponse [("message", JValue.str "not found")]
      rfl rfl).1 (JValue.str "not found") rfl

/-- C2: the field validator succeeds when every listed field is present in
the decoded data and otherwise fails with a ChapaError (the SchemaError of
the spec) naming exactly the first absent field of the list, in the order
the list is given; consequently any operation that validates a field list
turns a 2xx response whose `data` is missing a required field into that
error. -/
theorem c2_schema_error :
    (∀ (data : Dict JValue) (fields : List String),
      (∀ f ∈ fields, dictContains data f = true) →
      _check_data_fields data fields = Except.ok ())
    ∧ (∀ (data : Dict JValue) (pre : List String) (f : String)
        (post : List String),
        dictContains data f = false →
        (∀ g ∈ pre, dictContains data g = true) →
        _check_data_fields data (pre ++ f :: post) =
          Except.error
            (PyError.chapaError
              (JValue.str ("data missing " ++ f ++ " field")) none))
    ∧ (∀ (r : Response) (json_data data : Dict JValue) (pre : List String)
        (f : String) (post : List String),
        r.jsonBody = some json_data →
        r.is_success = true →
        dictGet json_data "data" = some (JValue.obj data) →
        dictContains data f = false →
        (∀ g ∈ pre, dictContains data g = true) →
        validated_op_process (pre ++ f :: post) r =
          Except.error
            (PyError.chapaError
              (JValue.str ("data missing " ++ f ++ " field")) none)) := by
  refine ⟨check_data_fields_of_all_present, check_data_fields_of_first_missing, ?_⟩
  intro r json_data data pre f post hb hs hd hmiss hpre
  have hex : _extract_json_data r = Except.ok json_data := by
    rw [extract_json_data_of_body r json_data hb,
      check_response_of_success r json_data hs]
  have henv : envelope_data json_data = data := by
    simp [envelope_data, hd]
  simp [validated_op_process, hex, henv,
    check_data_fields_of_first_missing data pre f post hmiss hpre]

/-- Witness for C2: with data `{"a": null}`, validating the field list
`["a", "b"]` fails naming `b`, both directly and through the full
pipeline on a 200 response. -/
theorem c2_schema_error_witness :
    _check_data_fields [("a", JValue.null)] ["a", "b"] =
      Except.error
        (PyError.chapaError (JValue.str "data missing b field") none)
    ∧ validated_op_process ["a", "b"]
        { status_code := 200,
          jsonBody := some [("data", JValue.obj [("a", JValue.null)])] } =
      Except.error
        (PyError.chapaError (JValue.str "data missing b field") none) :=
  ⟨c2_schema_error.2.1 [("a", JValue.null)] ["a"] "b" [] rfl
      (by intro g hg; rw [List.mem_singleton] at hg; subst hg; rfl),
   c2_schema_error.2.2
      { status_code := 200,
        jsonBody := some [("data", JValue.obj [("a", JValue.null)])] }
      [("data", JValue.obj [("a", JValue.null)])] [("a", JValue.null)]
      ["a"] "b" [] rfl rfl rfl rfl
      (by intro g hg; rw [List.mem_singleton] at hg; subst hg; rfl)⟩

/-- C3: in every payload builder, an optional parameter that is absent or
empty never emits its key in the request payload (each key is present
exactly when the parameter is truthy, so absence omits the key rather than
emitting null); in particular `init_payment(amount=100)` with no other
arguments builds exactly the one-key payload containing `amount` bound to
the string "100". -/
theorem c3_omitted_optionals (amount : Int)
    (currency first_name last_name phone_number email callback_url
      return_url subaccount_id tx_ref : Option String)
    (customization meta : Option (Dict JValue))
    (t_amount : Int) (t_account_number : String) (t_bank_code : Int)
    (t_currency t_account_name t_reference : Option String)
    (s_account_name : String) (s_bank_code : Int) (s_account_number : String)
    (s_split_value : Int) (s_split_type : String)
    (s_business_name : Option String)
    (b_title b_currency : Option String) (b_bulk_data : List JValue) :
    init_payment_payload 100 none none none none none none none none none
        none none = [("amount", JValue.str "100")]
    ∧ dictContains (init_payment_payload amount currency first_name last_name
        phone_number email callback_url return_url customization
        subaccount_id tx_ref meta) "currency" = strOptTruthy currency
    ∧ dictContains (init_payment_payload amount currency first_name last_name
        phone_number email callback_url return_url customization
        subaccount_id tx_ref meta) "first_name" = strOptTruthy first_name
    ∧ dictContains (init_payment_payload amount currency first_name last_name
        phone_number email callback_url return_url customization
        subaccount_id tx_ref meta) "last_name" = strOptTruthy last_name
    ∧ dictContains (init_payment_payload amount currency first_name last_name
        phone_number email callback_url return_url customization
        subaccount_id tx_ref meta) "phone_number" = strOptTruthy phone_number
    ∧ dictContains (init_payment_payload amount currency first_name last_name
        phone_number email callback_url return_url customization
        subaccount_id tx_ref meta) "email" = strOptTruthy email
    ∧ dictContains (init_payment_payload amount currency first_name last_name
        phone_number email callback_url return_url customization
        subaccount_id tx_ref meta) "callback_url" = strOptTruthy callback_url
    ∧ dictContains (init_payment_payload amount currency first_name last_name
        phone_number email callback_url return_url customization
        subaccount_id tx_ref meta) "return_url" = strOptTruthy return_url
    ∧ dictContains (init_payment_payload amount currency first_name last_name
        phone_number email callback_url return_url customization
        subaccount_id tx_ref meta) "tx_ref" = strOptTruthy tx_ref
    ∧ dictContains (init_payment_payload amount currency first_name last_name
        phone_number email callback_url return_url customization
        subaccount_id tx_ref meta) "customization" = dictOptTruthy customization
    ∧ dictContains (init_payment_payload amount currency first_name last_name
        phone_number email callback_url return_url customization
        subaccount_id tx_ref meta) "subaccount_id" = strOptTruthy subaccount_id
    ∧ dictContains (init_payment_payload amount currency first_name last_name
        phone_number email callback_url return_url customization
        subaccount_id tx_ref meta) "meta" = dictOptTruthy meta
    ∧ dictContains (init_transfer_payload t_amount t_account_number t_bank_code
        t_currency t_account_name t_reference) "currency" =
        strOptTruthy t_currency
    ∧ dictContains (init_transfer_payload t_amount t_account_number t_bank_code
        t_currency t_account_name t_reference) "account_name" =
        strOptTruthy t_account_name
    ∧ dictContains (init_transfer_payload t_amount t_account_number t_bank_code
        t_currency t_account_name t_reference) "reference" =
        strOptTruthy t_reference
    ∧ dictContains (create_subaccount_payload s_account_name s_bank_code
        s_account_number s_split_value s_split_type s_business_name)
        "business_name" = strOptTruthy s_business_name
    ∧ dictContains (bulk_transfer_payload b_title b_currency b_bulk_data)
        "title" = strOptTruthy b_title
    ∧ dictContains (bulk_transfer_payload b_title b_currency b_bulk_data)
        "currency" = strOptTruthy b_currency := by
  refine ⟨rfl, ?_, ?_, ?_, ?_, ?_, ?_, ?_, ?_, ?_, ?_, ?_, ?_, ?_, ?_, ?_,
    ?_, ?_⟩ <;>
  simp [init_payment_payload, init_transfer_payload,
    create_subaccount_payload, bulk_transfer_payload, dictUpdate,
    dictContains_addIfStr_self, dictContains_addIfStr_ne,
    dictContains_addIfDict_self, dictContains_addIfDict_ne,
    dictContains_dictSet, dictContains]

/-- C4: for every integer amount, the payload built by init_payment
carries `amount` as the string form of that number while the payload built
by init_transfer carries `amount` as the numeric value itself, whatever
the other arguments are. -/
theorem c4_amount_asymmetry (amount : Int)
    (currency first_name last_name phone_number email callback_url
      return_url subaccount_id tx_ref : Option String)
    (customization meta : Option (Dict JValue))
    (t_account_number : String) (t_bank_code : Int)
    (t_currency t_account_name t_reference : Option String) :
    dictGet (init_payment_payload amount currency first_name last_name
        phone_number email callback_url return_url customization
        subaccount_id tx_ref meta) "amount" =
      some (JValue.str (pyStrInt amount))
    ∧ dictGet (init_transfer_payload amount t_account_number t_bank_code
        t_currency t_account_name t_reference) "amount" =
      some (JValue.num amount) := by
  constructor <;>
  simp [init_payment_payload, init_transfer_payload,
    dictGet_addIfStr_ne, dictGet_addIfDict_ne, dictGet]

/-- C5: what the code does at the failing input. A response whose body is
not valid structured data makes `response.json()` raise
`json.JSONDecodeError`, which the `except httpx.DecodingError` clause of
`_extract_json_data` does not catch: the error propagates raw, it is not
the documented `ChapaError("Invalid JSON response", response)` wrapping
the original response, for 2xx and non-2xx statuses alike. -/
theorem c5_unparseable_body_behavior :
    _extract_json_data { status_code := 404, jsonBody := none } =
      Except.error (PyError.jsonDecodeError "Expecting value")
    ∧ _extract_json_data { status_code := 200, jsonBody := none } =
      Except.error (PyError.jsonDecodeError "Expecting value")
    ∧ _extract_json_data { status_code := 404, jsonBody := none } ≠
      Except.error
        (PyError.chapaError (JValue.str "Invalid JSON response")
          (some { status_code := 404, jsonBody := none }))
    ∧ (match _extract_json_data { status_code := 404, jsonBody := none } with
       | Except.error e => e.isChapaError
       | Except.ok _ => false) = false := by
  refine ⟨rfl, rfl, ?_, rfl⟩
  intro h
  exact PyError.noConfusion (Except.error.inj h)

/-- C6, counterexample: a base URL carrying a trailing slash is not
normalized, so the join is not the specified one-separating-slash join. -/
theorem c6_counterexample :
    resolveURL "https://api.chapa.co/v1/" "banks" ≠
      spec_join "https://api.chapa.co/v1/" "banks" := by
  decide

/-- C6, amended: the transport adapter resolves the absolute URL as the
base URL, one slash, and the path with its leading slashes stripped —
hence exactly one separating slash whenever the base URL does not itself
end in a slash; trailing slashes of the base URL are kept as they are. -/
theorem c6_url_join (base_url path : String) :
    resolveURL base_url path = base_url ++ "/" ++ pyLstripSlash path
    ∧ strStartsWithSlash (pyLstripSlash path) = false :=
  ⟨rfl, strStartsWithSlash_pyLstripSlash path⟩

/-- C7: the transport adapter fails with ValueError (the
ConfigurationError of the spec) when the requested method name is not an
attribute of the underlying httpx client, and with TypeError when the
caller-supplied headers argument is not a dict; in both cases the error is
returned whatever the transport would reply, so no network call is
attempted. -/
theorem c7_configuration_errors (c : ChapaClient)
    (transport : HttpRequest → Response) (method path : String)
    (headersKw : Option HeadersArg) :
    (httpxClientAttrs.contains method = false →
      _send_request c transport method path headersKw =
        Except.error
          (PyError.valueError
            ("HTTP method " ++ method ++ " is not valid method for httpx.Client")))
    ∧ (httpxClientAttrs.contains method = true →
      _send_request c transport method path (some HeadersArg.nonDict) =
        Except.error (PyError.typeError "headers must be a valid dict")) := by
  constructor
  · intro h
    have hmem : method ∉ httpxClientAttrs := by simpa using h
    simp [_send_request, hmem]
  · intro h
    have hmem : method ∈ httpxClientAttrs := by simpa using h
    simp [_send_request, hmem]

/-- Witness for C7: the unsupported method name foo fails with ValueError,
and a non-dict headers argument under the supported method post fails with
TypeError. -/
theorem c7_configuration_errors_witness :
    _send_request clientExample stubTransport "foo" "banks" none =
      Except.error
        (PyError.valueError
          "HTTP method foo is not valid method for httpx.Client")
    ∧ _send_request clientExample stubTransport "post" "banks"
        (some HeadersArg.nonDict) =
      Except.error (PyError.typeError "headers must be a valid dict") :=
  ⟨(c7_configuration_errors clientExample stubTransport "foo" "banks" none).1
      rfl,
   (c7_configuration_errors clientExample stubTransport "post" "banks"
      none).2 rfl⟩

/-- C8: every outgoing request carries the stored base header set
(Authorization bearer token and Content-Type, as set by the constructor)
merged with the caller-supplied extra headers, the extra entry winning on
key collision, and the client state — its stored base header dict
included — is returned unchanged by the call. -/
theorem c8_header_merge (c : ChapaClient) (transport : HttpRequest → Response)
    (method path : String) (extra : Dict String)
    (hm : httpxClientAttrs.contains method = true)
    (hn : nodupKeys extra = true) :
    _send_request c transport method path (some (HeadersArg.dict extra)) =
      Except.ok
        (transport
          { method := method
            url := resolveURL c.base_url path
            headers := dictUpdate c.base_headers extra }, c)
    ∧ (∀ k, dictGet (dictUpdate c.base_headers extra) k =
        (dictGet extra k).orElse (fun _ => dictGet c.base_headers k))
    ∧ (∀ token burl, (Chapa.init token burl).base_headers =
        [("Authorization", "Bearer " ++ token),
         ("Content-Type", "application/json")]) := by
  refine ⟨?_, ?_, ?_⟩
  · have hmem : method ∈ httpxClientAttrs := by simpa using hm
    simp [_send_request, hmem]
  · intro k
    exact dictGet_dictUpdate extra c.base_headers hn k
  · intro token burl
    rfl

/-- Witness for C8: a caller-supplied Content-Type overrides the base
Content-Type, a fresh header is added, and the untouched Authorization
base header is still served. -/
theorem c8_header_merge_witness :
    dictGet (dictUpdate clientExample.base_headers
        [("Content-Type", "text/plain"), ("X-Extra", "1")]) "Content-Type" =
      some "text/plain"
    ∧ dictGet (dictUpdate clientExample.base_headers
        [("Content-Type", "text/plain"), ("X-Extra", "1")]) "X-Extra" =
      some "1"
    ∧ dictGet (dictUpdate clientExample.base_headers
        [("Content-Type", "text/plain"), ("X-Extra", "1")]) "Authorization" =
      some "Bearer token" := by
  have h := (c8_header_merge clientExample stubTransport "post" "banks"
    [("Content-Type", "text/plain"), ("X-Extra", "1")] rfl rfl).2.1
  exact ⟨h "Content-Type", h "X-Extra", h "Authorization"⟩

/-- C9: balances with no currency argument requests the un-scoped
balances path, balances with a (truthy) currency requests the scoped path
whose final segment is the currency lower-cased; and the result is built
by validating and mapping each element of the returned data list
independently, in order, into one balance record per element — every
valid list maps element-wise, and an invalid element fails with its own
validation error after the valid elements before it. -/
theorem c9_balances :
    balances_path none = "balances"
    ∧ balances_path (some "USD") = "balances/usd"
    ∧ (∀ cur : String, cur ≠ "" →
        balances_path (some cur) = "balances" ++ "/" ++ pyLower cur)
    ∧ (∀ xs : List (Dict JValue),
        (∀ b ∈ xs, _check_data_fields b balanceRequiredFields = Except.ok ()) →
        balances_map xs = Except.ok (xs.map mkChapaBalance))
    ∧ (∀ (pre : List (Dict JValue)) (b : Dict JValue)
        (post : List (Dict JValue)) (e : PyError),
        _check_data_fields b balanceRequiredFields = Except.error e →
        (∀ c2 ∈ pre,
          _check_data_fields c2 balanceRequiredFields = Except.ok ()) →
        balances_map (pre ++ b :: post) = Except.error e) := by
  refine ⟨rfl, rfl, ?_, balances_map_of_all_valid, balances_map_of_first_invalid⟩
  intro cur hcur
  simp [balances_path, hcur]

/-- Witness for C9: the currency usd yields the scoped path, a one-element
valid data list maps to one balance record, and a list whose second
element misses the ledger balance fails with the error naming it. -/
theorem c9_balances_witness :
    balances_path (some "usd") = "balances/usd"
    ∧ balances_map
        [[("currency", JValue.str "ETB"),
          ("available_balance", JValue.num 50),
          ("ledger_balance", JValue.num 60)]] =
      Except.ok
        [mkChapaBalance
          [("currency", JValue.str "ETB"),
           ("available_balance", JValue.num 50),
           ("ledger_balance", JValue.num 60)]]
    ∧ balances_map
        [[("currency", JValue.str "ETB"),
          ("available_balance", JValue.num 50),
          ("ledger_balance", JValue.num 60)],
         [("currency", JValue.str "USD")]] =
      Except.error
        (PyError.chapaError
          (JValue.str "data missing available_balance field") none) := by
  refine ⟨c9_balances.2.2.1 "usd" (by decide), ?_, ?_⟩
  · exact c9_balances.2.2.2.1 _
      (by intro b hb; rw [List.mem_singleton] at hb; subst hb; rfl)
  · exact c9_balances.2.2.2.2
      [[("currency", JValue.str "ETB"),
        ("available_balance", JValue.num 50),
        ("ledger_balance", JValue.num 60)]]
      [("currency", JValue.str "USD")] [] _ rfl
      (by intro c2 hc2; rw [List.mem_singleton] at hc2; subst hc2; rfl)

/-- C10: banks returns the entire decoded envelope — whatever top-level
keys it carries, `message` and `status` included — while the raw-mapping
operations get_transactions, get_transfers, swap and get_transaction_log
return only the `data` portion; and on a 2xx response whose envelope
lacks a `data` key they return the empty mapping (the empty list for
get_transaction_log) without raising. -/
theorem c10_envelope_and_raw_results (r : Response) (json_data : Dict JValue)
    (hb : r.jsonBody = some json_data) (hs : r.is_success = true) :
    banks_process r = Except.ok json_data
    ∧ (∀ d, dictGet json_data "data" = some d →
        get_transactions_process r = Except.ok d
        ∧ get_transfers_process r = Except.ok d
        ∧ swap_process r = Except.ok d
        ∧ get_transaction_log_process r = Except.ok d)
    ∧ (dictGet json_data "data" = none →
        get_transactions_process r = Except.ok (JValue.obj [])
        ∧ get_transfers_process r = Except.ok (JValue.obj [])
        ∧ swap_process r = Except.ok (JValue.obj [])
        ∧ get_transaction_log_process r = Except.ok (JValue.arr [])) := by
  have hex : _extract_json_data r = Except.ok json_data := by
    rw [extract_json_data_of_body r json_data hb,
      check_response_of_success r json_data hs]
  refine ⟨?_, ?_, ?_⟩
  · simp [banks_process, hex]
  · intro d hd
    refine ⟨?_, ?_, ?_, ?_⟩ <;>
    simp [get_transactions_process, get_transfers_process, swap_process,
      get_transaction_log_process, hex, dictGetD, hd]
  · intro hd
    refine ⟨?_, ?_, ?_, ?_⟩ <;>
    simp [get_transactions_process, get_transfers_process, swap_process,
      get_transaction_log_process, hex, dictGetD, hd]

/-- Witness for C10: a 200 response whose envelope has only `message` and
`status` keys — banks returns the whole envelope, and the raw-mapping
operations return their empty defaults. -/
theorem c10_envelope_and_raw_results_witness :
    banks_process okEnvelopeResponse =
      Except.ok [("message", JValue.str "ok"), ("status", JValue.str "success")]
    ∧ get_transactions_process okEnvelopeResponse = Except.ok (JValue.obj [])
    ∧ get_transfers_process okEnvelopeResponse = Except.ok (JValue.obj [])
    ∧ swap_process okEnvelopeResponse = Except.ok (JValue.obj [])
    ∧ get_transaction_log_process okEnvelopeResponse =
      Except.ok (JValue.arr []) := by
  have h := c10_envelope_and_raw_results okEnvelopeResponse
    [("message", JValue.str "ok"), ("status", JValue.str "success")] rfl rfl
  have h2 := h.2.2 rfl
  exact ⟨h.1, h2.1, h2.2.1, h2.2.2.1, h2.2.2.2⟩

end Pychapa
